import Mathlib

/-!
Shallow embedding of the prediction-and-optimization core of the
batterymate backend (app/ml_models and app/services), over exact
rational arithmetic, together with theorems checking the spec's
claims about it.
-/

namespace BatteryMate

/-- `np.clip(x, lo, hi)` on scalars: values below `lo` become `lo`,
values above `hi` become `hi`. -/
def clip (x lo hi : ℚ) : ℚ := if x < lo then lo else if hi < x then hi else x

/-- Python `min(a, b)` on two numbers (returns `a` on ties). -/
def pymin (a b : ℚ) : ℚ := if b < a then b else a

/-- Python dict access `features[name]`: raises `KeyError` when absent,
embedded as `Except` carrying the missing key's name. -/
def getReq (o : Option ℚ) (name : String) : Except String ℚ :=
  match o with
  | some v => Except.ok v
  | none => Except.error name

/-- Feature dictionary accepted by `RangePredictor.predict` and the
`MLService` range entry points; absent keys are `none`. -/
structure RangeFeatures where
  current_battery : Option ℚ
  distance_km : Option ℚ
  temperature : Option ℚ
  vehicle_age : Option ℚ
  battery_capacity : Option ℚ
  efficiency : Option ℚ
  humidity : Option ℚ
  wind_speed : Option ℚ
deriving DecidableEq, Repr

namespace RangePredictor

/-- `RangePredictor._predict_fallback` (range_predictor.py lines 95-125):
required keys raise `KeyError` when missing; `battery_capacity` defaults
to 60.0 and `efficiency` to 0.14; simple physics formula, temperature
penalty, clip to [0,100], fixed confidence 0.70. -/
def predictFallback (f : RangeFeatures) : Except String (ℚ × ℚ) := do
  let current_battery ← getReq f.current_battery "current_battery"
  let distance_km ← getReq f.distance_km "distance_km"
  let temperature ← getReq f.temperature "temperature"
  let battery_capacity := f.battery_capacity.getD 60
  let efficiency := f.efficiency.getD (14/100)
  let energy_consumed_kwh := distance_km * efficiency
  let battery_consumption_percent := energy_consumed_kwh / battery_capacity * 100
  let predicted := current_battery - battery_consumption_percent
  let predicted :=
    if temperature < 0 then predicted * (85/100)
    else if temperature > 40 then predicted * (90/100)
    else predicted
  pure (clip predicted 0 100, 70/100)

end RangePredictor

/-- The range fallback as the spec words it (§4.2): energy, consumption
percentage, subtraction, then the mutually exclusive temperature penalty
applied to the already-subtracted value, clip, constant confidence. -/
def rangeFallbackSpec (cb dist temp cap eff : ℚ) : ℚ × ℚ :=
  let energy_kwh := dist * eff
  let consumption_pct := energy_kwh / cap * 100
  let predicted := cb - consumption_pct
  let adjusted :=
    if temp < 0 then predicted * (85/100)
    else if temp > 40 then predicted * (90/100)
    else predicted
  (clip adjusted 0 100, 70/100)

/-- Scenario A input from the spec (§8). -/
def scenarioA : RangeFeatures :=
  { current_battery := some 80, distance_km := some 50, temperature := some 25
    vehicle_age := none, battery_capacity := some 60, efficiency := some (14/100)
    humidity := none, wind_speed := none }

/-- Discrete air-quality bands produced by the classifier. -/
inductive AQLevel where
  | GOOD
  | MODERATE
  | UNHEALTHY_FOR_SENSITIVE
  | UNHEALTHY
  | HAZARDOUS
deriving DecidableEq, Repr

/-- Feature dictionary accepted by `AirQualityPredictor`. -/
structure AirFeatures where
  pm10 : Option ℚ
  no2 : Option ℚ
  o3 : Option ℚ
  humidity : Option ℚ
  wind_speed : Option ℚ
  temperature : Option ℚ
  cloud_cover : Option ℚ
deriving DecidableEq, Repr

namespace AirQualityPredictor

/-- The if/elif classification chain shared by both paths of
`AirQualityPredictor` (air_quality_predictor.py lines 104-114). -/
def classify (pm25 : ℚ) : AQLevel :=
  if pm25 ≤ 12 then AQLevel.GOOD
  else if pm25 ≤ 35 then AQLevel.MODERATE
  else if pm25 ≤ 55 then AQLevel.UNHEALTHY_FOR_SENSITIVE
  else if pm25 ≤ 150 then AQLevel.UNHEALTHY
  else AQLevel.HAZARDOUS

/-- `AirQualityPredictor._predict_fallback` (lines 90-116): pm25 from
pm10 (default 50) times 0.4, wind adjustment above 10 (default 5), clip
to [0,500], then classify. -/
def predictFallback (f : AirFeatures) : ℚ × AQLevel :=
  let pm10 := f.pm10.getD 50
  let pm25 := pm10 * (4/10)
  let wind_speed := f.wind_speed.getD 5
  let pm25 := if wind_speed > 10 then pm25 * (8/10) else pm25
  let pm25 := clip pm25 0 500
  (pm25, classify pm25)

end AirQualityPredictor

/-- The air-quality fallback pm2.5 value as the spec words it (§4.3). -/
def airFallbackSpec (pm10 wind : ℚ) : ℚ :=
  clip (if wind > 10 then pm10 * (4/10) * (8/10) else pm10 * (4/10)) 0 500

/-- Scenario B input from the spec (§8): pm10 = 50, wind_speed = 5,
everything else defaulted. -/
def scenarioB : AirFeatures :=
  { pm10 := some 50, no2 := none, o3 := none, humidity := none
    wind_speed := some 5, temperature := none, cloud_cover := none }

/-- Trip record as consumed by `CalculationService.calculate_eco_score`;
`none` models a SQL NULL / absent attribute. -/
structure Trip where
  duration_minutes : Option ℚ
  distance_km : Option ℚ
  start_battery_percentage : Option ℚ
  end_battery_percentage : Option ℚ
  temperature_celsius : Option ℚ
deriving DecidableEq, Repr

/-- Python truthiness of a possibly-absent numeric field: `None` and
`0` are falsy, every other number is truthy. -/
def truthy : Option ℚ → Bool
  | none => false
  | some v => decide (v ≠ 0)

namespace CalculationService

/-- Driving-efficiency block of `calculate_eco_score`
(calculation_service.py lines 30-38): guarded by truthiness of
`duration_minutes` and `distance_km`. -/
def speedBonus (t : Trip) : ℚ :=
  if truthy t.duration_minutes && truthy t.distance_km then
    let avg_speed := t.distance_km.getD 0 / t.duration_minutes.getD 0 * 60
    if 40 ≤ avg_speed ∧ avg_speed ≤ 80 then 20
    else if 30 ≤ avg_speed ∧ avg_speed ≤ 100 then 15
    else 5
  else 0

/-- Battery-efficiency block (lines 40-48): guarded by truthiness of
both battery percentages. -/
def batteryBonus (t : Trip) : ℚ :=
  if truthy t.start_battery_percentage && truthy t.end_battery_percentage then
    let battery_used := t.start_battery_percentage.getD 0 - t.end_battery_percentage.getD 0
    if battery_used < 50 then 15
    else if battery_used < 70 then 10
    else 5
  else 0

/-- Environmental block (lines 50-55): guarded by truthiness of
`temperature_celsius`. -/
def tempBonus (t : Trip) : ℚ :=
  if truthy t.temperature_celsius then
    if 15 ≤ t.temperature_celsius.getD 0 ∧ t.temperature_celsius.getD 0 ≤ 30 then 15
    else 5
  else 0

/-- `CalculationService.calculate_eco_score` (lines 26-57): base 50,
the three conditional bonus blocks, capped at 100. -/
def calculateEcoScore (t : Trip) : ℚ :=
  pymin 100 (50 + speedBonus t + batteryBonus t + tempBonus t)

end CalculationService

/-- Scenario D input from the spec (§8): 30 km in 40 min, battery
80% → 70%, 22 °C. -/
def scenarioD : Trip :=
  { duration_minutes := some 40, distance_km := some 30
    start_battery_percentage := some 80, end_battery_percentage := some 70
    temperature_celsius := some 22 }

/-- Python `max(a, b)` on two numbers (returns `a` on ties). -/
def pymax (a b : ℚ) : ℚ := if a < b then b else a

/-- Optimization weights held by `RouteOptimizer` (dict with the four
keys time/cost/carbon/air_quality). -/
structure OptWeights where
  time : ℚ
  cost : ℚ
  carbon : ℚ
  air_quality : ℚ
deriving DecidableEq, Repr

/-- `RouteOptimizer.set_weights` (route_optimizer.py lines 16-24):
divides every entry by the sum of the entries. A zero sum makes the
divisions raise Python's uncaught `ZeroDivisionError`, embedded as
`Except.error`; the assignment to `self.weights` happens only after the
whole comprehension succeeds, so nothing is stored on error. -/
def RouteOptimizer.setWeights (w : OptWeights) : Except String OptWeights :=
  let total := w.time + w.cost + w.carbon + w.air_quality
  if total = 0 then Except.error "ZeroDivisionError"
  else Except.ok ⟨w.time / total, w.cost / total, w.carbon / total, w.air_quality / total⟩

/-- Availability state of a predictor instance: `modelAvailable` is
`self.model_available`, `modelLoaded` is `self.model is not None`. -/
structure PredictorState where
  modelAvailable : Bool
  modelLoaded : Bool
deriving DecidableEq, Repr

/-- `RangePredictor.__init__` (range_predictor.py lines 12-34): both
fields start falsy and are set (together, once) exactly when the
artifact file exists and deserializes. -/
def RangePredictor.initState (artifactLoads : Bool) : PredictorState :=
  ⟨artifactLoads, artifactLoads⟩

/-- `RangePredictor.predict` (lines 36-60) as a state transformer. The
tf-model inference of `_predict_with_model` is outside the embedding and
abstracted as `modelPath`; the guard is `self.model_available and
self.model`; no branch assigns to `self`, so the state is returned
unchanged. -/
def RangePredictor.predict (modelPath : RangeFeatures → Except String (ℚ × ℚ))
    (s : PredictorState) (f : RangeFeatures) :
    Except String (ℚ × ℚ) × PredictorState :=
  if s.modelAvailable && s.modelLoaded then (modelPath f, s)
  else (RangePredictor.predictFallback f, s)

/-- `MLService._mock_range_prediction` (ml_service.py lines 65-83):
every field is read through `.get` with a default (`distance_km` 50,
`current_battery` 100, `battery_capacity` 60, `temperature` 25), so it
never raises. -/
def MLService.mockRangePrediction (f : RangeFeatures) : ℚ × ℚ :=
  let distance_km := f.distance_km.getD 50
  let current_battery := f.current_battery.getD 100
  let max_range := f.battery_capacity.getD 60 / (14/100)
  let predicted := pymax 0 (current_battery - distance_km / max_range * 100)
  let temp := f.temperature.getD 25
  let predicted :=
    if temp < 0 then predicted * (85/100)
    else if temp > 40 then predicted * (90/100)
    else predicted
  (predicted, 75/100)

/-- `MLService.predict_range` (lines 43-52): when models are available
it calls the predictor inside `try/except Exception`, falling through to
`_mock_range_prediction` on ANY error; when unavailable it calls the
mock directly. -/
def MLService.predictRange (modelPath : RangeFeatures → Except String (ℚ × ℚ))
    (modelsAvailable : Bool) (s : PredictorState) (f : RangeFeatures) : ℚ × ℚ :=
  if modelsAvailable then
    match (RangePredictor.predict modelPath s f).1 with
    | Except.ok r => r
    | Except.error _ => MLService.mockRangePrediction f
  else MLService.mockRangePrediction f

/-- A point with `lat`/`lon` fields as used by the multi-stop planner. -/
structure GeoPoint where
  lat : ℚ
  lon : ℚ
deriving DecidableEq, Repr

/-- Squared Euclidean key underlying the planner's
`np.sqrt((Δlat)² + (Δlon)²)` comparisons; the square root is strictly
monotone on nonnegatives, so comparing and sorting on the squared value
orders candidates identically to the source. -/
def distSq (a b : GeoPoint) : ℚ := (a.lat - b.lat) ^ 2 + (a.lon - b.lon) ^ 2

/-- `RouteOptimizer._find_best_station` (route_optimizer.py lines
119-133): `None` for an empty candidate list, otherwise a stable sort of
the stations by proximity to the destination; the source then does
`return stations_sorted if stations_sorted else None`, i.e. returns the
ENTIRE sorted list, not a single station. -/
def RouteOptimizer.findBestStation (current dest : GeoPoint)
    (stations : List GeoPoint) (battery : ℚ) : Option (List GeoPoint) :=
  match stations with
  | [] => none
  | s :: rest =>
      let stations_sorted :=
        (s :: rest).insertionSort (fun a b => distSq a dest ≤ distSq b dest)
      if stations_sorted.isEmpty then none else some stations_sorted

/-- `np.min` over the nonempty array `x :: t`, as a left fold. -/
def lmin (x : ℚ) (t : List ℚ) : ℚ := t.foldl min x

/-- `np.max` over the nonempty array `x :: t`, as a left fold. -/
def lmax (x : ℚ) (t : List ℚ) : ℚ := t.foldl max x

/-- Min-max normalization of `optimize_route` (route_optimizer.py lines
55-58), with the source's `+ 1` in the denominator. -/
def normVal (v mn mx : ℚ) : ℚ := (v - mn) / (mx - mn + 1)

/-- One route option passed to `optimize_route`. -/
structure RouteCandidate where
  id : ℤ
  time_minutes : ℚ
  cost_rupees : ℚ
  co2_grams : ℚ
  avg_aqi : ℚ
deriving DecidableEq, Repr

/-- Elementwise weighted scores array of `optimize_route` (lines
50-66): per-metric min and max over all candidates, normalization, then
the weight-weighted sum for each candidate. -/
def RouteOptimizer.scores (w : OptWeights) (routes : List RouteCandidate) : List ℚ :=
  match routes with
  | [] => []
  | r :: rs =>
      let mnT := lmin r.time_minutes (rs.map RouteCandidate.time_minutes)
      let mxT := lmax r.time_minutes (rs.map RouteCandidate.time_minutes)
      let mnC := lmin r.cost_rupees (rs.map RouteCandidate.cost_rupees)
      let mxC := lmax r.cost_rupees (rs.map RouteCandidate.cost_rupees)
      let mnB := lmin r.co2_grams (rs.map RouteCandidate.co2_grams)
      let mxB := lmax r.co2_grams (rs.map RouteCandidate.co2_grams)
      let mnA := lmin r.avg_aqi (rs.map RouteCandidate.avg_aqi)
      let mxA := lmax r.avg_aqi (rs.map RouteCandidate.avg_aqi)
      (r :: rs).map (fun c =>
        w.time * normVal c.time_minutes mnT mxT +
        w.cost * normVal c.cost_rupees mnC mxC +
        w.carbon * normVal c.co2_grams mnB mxB +
        w.air_quality * normVal c.avg_aqi mnA mxA)

/-- `np.argmin`: index of the first occurrence of the minimum value. -/
def argminIdx : List ℚ → ℕ
  | [] => 0
  | x :: t => (x :: t).indexOf (lmin x t)

/-- `RouteOptimizer.optimize_route` (lines 26-69): sentinel 0 for an
empty input, otherwise the id of the candidate at the argmin of the
scores array (the index is always in range; the default is never
used). -/
def RouteOptimizer.optimizeRoute (w : OptWeights) (routes : List RouteCandidate) : ℤ :=
  match routes with
  | [] => 0
  | r :: rs =>
      ((r :: rs).getD (argminIdx (RouteOptimizer.scores w (r :: rs))) r).id

/-- Feature dict consumed by `ChargingOptimizer.predict_cost`. -/
structure CostFeatures where
  distance_km : ℚ
  hour : ℤ
  day_of_week : ℤ
  is_peak_hour : ℤ
  is_weekend : ℤ
  traffic_level : ℤ
  avg_speed_kmh : ℚ
deriving DecidableEq, Repr

/-- `ChargingOptimizer.predict_cost` (charging_optimizer.py lines
17-47): the XGBoost regressor artifact is outside the embedding and
abstracted as `model`; the code clips its output to [0,1000]. -/
def ChargingOptimizer.predictCost (model : CostFeatures → ℚ) (f : CostFeatures) : ℚ :=
  clip (model f) 0 1000

/-- `check_hour = (current_hour + hour_offset) % 24` (line 72); Lean's
`Int` `%` and Python's `%` both return a value in [0,24). -/
def checkHour (current_hour : ℤ) (hour_offset : ℕ) : ℤ :=
  (current_hour + hour_offset) % 24

/-- `check_day` (line 73): unchanged at offset 0, otherwise advanced by
exactly one day whatever the offset. -/
def checkDay (day_of_week : ℤ) (hour_offset : ℕ) : ℤ :=
  if hour_offset = 0 then day_of_week else (day_of_week + 1) % 7

/-- The feature dict built for one scanned slot (lines 75-86). -/
def slotFeatures (current_hour day_of_week : ℤ) (distance_km : ℚ)
    (hour_offset : ℕ) : CostFeatures :=
  let ch := checkHour current_hour hour_offset
  let cd := checkDay day_of_week hour_offset
  { distance_km := distance_km, hour := ch, day_of_week := cd
    is_peak_hour := if ch = 7 ∨ ch = 8 ∨ ch = 17 ∨ ch = 18 ∨ ch = 19 then 1 else 0
    is_weekend := if cd = 5 ∨ cd = 6 then 1 else 0
    traffic_level := 1, avg_speed_kmh := 50 }

/-- The carbon-weighted cost of one scanned slot (lines 78-91):
predicted cost, times `grid_intensity[check_hour] / 700` when the index
is in range (`check_hour` is never negative, so `toNat` is exact). -/
def slotCost (model : CostFeatures → ℚ) (current_hour day_of_week : ℤ)
    (distance_km : ℚ) (grid_intensity : List ℚ) (hour_offset : ℕ) : ℚ :=
  let cost := ChargingOptimizer.predictCost model
    (slotFeatures current_hour day_of_week distance_km hour_offset)
  if (checkHour current_hour hour_offset).toNat < grid_intensity.length then
    cost * (grid_intensity.getD (checkHour current_hour hour_offset).toNat 0 / 700)
  else cost

/-- One iteration of the 24-slot scan (lines 71-95): `none` stands for
the unbeaten `float('inf')` sentinel; the strict `<` keeps the earliest
minimum. -/
def scanStep (model : CostFeatures → ℚ) (current_hour day_of_week : ℤ)
    (distance_km : ℚ) (grid_intensity : List ℚ)
    (acc : Option ℚ × ℤ) (hour_offset : ℕ) : Option ℚ × ℤ :=
  let cost := slotCost model current_hour day_of_week distance_km grid_intensity hour_offset
  match acc.1 with
  | none => (some cost, checkHour current_hour hour_offset)
  | some best_cost =>
      if cost < best_cost then (some cost, checkHour current_hour hour_offset)
      else acc

/-- `ChargingOptimizer.find_optimal_charging_time` (lines 49-97):
scan offsets 0..23 tracking the minimum carbon-weighted cost, starting
from the `(inf, current_hour)` sentinel. -/
def ChargingOptimizer.findOptimalChargingTime (model : CostFeatures → ℚ)
    (current_hour day_of_week : ℤ) (distance_km : ℚ)
    (grid_intensity : List ℚ) : ℤ :=
  ((List.range 24).foldl
    (scanStep model current_hour day_of_week distance_km grid_intensity)
    (none, current_hour)).2

end BatteryMate

namespace BatteryMate

/-- C1: the range-predictor fallback computes exactly the spec formula
(defaults 60.0 / 0.14 for the optional keys), and on Scenario A returns
(68.33… = 205/3, 0.70). -/
theorem C1_range_fallback_formula :
    (∀ cb d t (va cap eff hu ws : Option ℚ),
      RangePredictor.predictFallback
        { current_battery := some cb, distance_km := some d, temperature := some t
          vehicle_age := va, battery_capacity := cap, efficiency := eff
          humidity := hu, wind_speed := ws }
        = Except.ok (rangeFallbackSpec cb d t (cap.getD 60) (eff.getD (14/100)))) ∧
    RangePredictor.predictFallback scenarioA = Except.ok (205/3, 70/100) := by
  constructor
  · intro cb d t va cap eff hu ws
    rfl
  · simp only [RangePredictor.predictFallback, scenarioA, getReq, clip, Option.getD,
      bind, Except.bind, pure, Except.pure, Except.ok.injEq, Prod.mk.injEq]
    norm_num

lemma speedBonus_nonneg (t : Trip) : 0 ≤ CalculationService.speedBonus t := by
  unfold CalculationService.speedBonus
  dsimp only
  split_ifs <;> norm_num

lemma speedBonus_le (t : Trip) : CalculationService.speedBonus t ≤ 20 := by
  unfold CalculationService.speedBonus
  dsimp only
  split_ifs <;> norm_num

lemma batteryBonus_nonneg (t : Trip) : 0 ≤ CalculationService.batteryBonus t := by
  unfold CalculationService.batteryBonus
  dsimp only
  split_ifs <;> norm_num

lemma batteryBonus_le (t : Trip) : CalculationService.batteryBonus t ≤ 15 := by
  unfold CalculationService.batteryBonus
  dsimp only
  split_ifs <;> norm_num

lemma tempBonus_nonneg (t : Trip) : 0 ≤ CalculationService.tempBonus t := by
  unfold CalculationService.tempBonus
  split_ifs <;> norm_num

lemma tempBonus_le (t : Trip) : CalculationService.tempBonus t ≤ 15 := by
  unfold CalculationService.tempBonus
  split_ifs <;> norm_num

/-- C6: the air-quality fallback is the spec formula (pm10 default 50,
wind default 5, 0.8 factor above wind 10, clip to [0,500]); the bands
are exhaustive with inclusive upper bounds; Scenario B yields
(20.0, MODERATE). -/
theorem C6_air_quality_fallback :
    (∀ f : AirFeatures,
      AirQualityPredictor.predictFallback f
        = (airFallbackSpec (f.pm10.getD 50) (f.wind_speed.getD 5),
           AirQualityPredictor.classify
             (airFallbackSpec (f.pm10.getD 50) (f.wind_speed.getD 5)))) ∧
    (∀ x : ℚ,
      (AirQualityPredictor.classify x = AQLevel.GOOD ↔ x ≤ 12) ∧
      (AirQualityPredictor.classify x = AQLevel.MODERATE ↔ 12 < x ∧ x ≤ 35) ∧
      (AirQualityPredictor.classify x = AQLevel.UNHEALTHY_FOR_SENSITIVE ↔ 35 < x ∧ x ≤ 55) ∧
      (AirQualityPredictor.classify x = AQLevel.UNHEALTHY ↔ 55 < x ∧ x ≤ 150) ∧
      (AirQualityPredictor.classify x = AQLevel.HAZARDOUS ↔ 150 < x)) ∧
    AirQualityPredictor.predictFallback scenarioB = (20, AQLevel.MODERATE) := by
  refine ⟨?_, ?_, ?_⟩
  · intro f
    unfold AirQualityPredictor.predictFallback airFallbackSpec
    dsimp only
  · intro x
    unfold AirQualityPredictor.classify
    split_ifs with h1 h2 h3 h4 <;>
      refine ⟨?_, ?_, ?_, ?_, ?_⟩ <;>
        simp only [reduceCtorEq, false_iff, true_iff, iff_true, iff_false,
          not_and, not_lt, not_le] <;>
          first
            | (constructor <;> linarith)
            | (intros <;> linarith)
  · norm_num [AirQualityPredictor.predictFallback, scenarioB,
      AirQualityPredictor.classify, clip]

/-- C8: the eco-score starts from base 50, adds bonuses only when the
guarding inputs are present, caps at 100, hence always lies in
[50,100]; Scenario D scores exactly 100. -/
theorem C8_eco_score :
    (∀ t : Trip, 50 ≤ CalculationService.calculateEcoScore t ∧
      CalculationService.calculateEcoScore t ≤ 100) ∧
    (∀ t : Trip, CalculationService.speedBonus t ≠ 0 →
      t.duration_minutes ≠ none ∧ t.distance_km ≠ none) ∧
    (∀ t : Trip, CalculationService.batteryBonus t ≠ 0 →
      t.start_battery_percentage ≠ none ∧ t.end_battery_percentage ≠ none) ∧
    (∀ t : Trip, CalculationService.tempBonus t ≠ 0 →
      t.temperature_celsius ≠ none) ∧
    CalculationService.calculateEcoScore scenarioD = 100 := by
  refine ⟨?_, ?_, ?_, ?_, by
    norm_num [CalculationService.calculateEcoScore, CalculationService.speedBonus,
      CalculationService.batteryBonus, CalculationService.tempBonus,
      scenarioD, truthy, pymin]⟩
  · intro t
    have h1 := speedBonus_nonneg t
    have h2 := batteryBonus_nonneg t
    have h3 := tempBonus_nonneg t
    have h4 := speedBonus_le t
    have h5 := batteryBonus_le t
    have h6 := tempBonus_le t
    unfold CalculationService.calculateEcoScore pymin
    split_ifs <;> constructor <;> linarith
  · intro t h
    unfold CalculationService.speedBonus at h
    by_cases hd : t.duration_minutes = none
    · simp [truthy, hd] at h
    · by_cases hk : t.distance_km = none
      · simp [truthy, hk] at h
      · exact ⟨hd, hk⟩
  · intro t h
    unfold CalculationService.batteryBonus at h
    by_cases hd : t.start_battery_percentage = none
    · simp [truthy, hd] at h
    · by_cases hk : t.end_battery_percentage = none
      · simp [truthy, hk] at h
      · exact ⟨hd, hk⟩
  · intro t h
    unfold CalculationService.tempBonus at h
    by_cases hd : t.temperature_celsius = none
    · simp [truthy, hd] at h
    · exact hd

/-- Witness for C8 at Scenario D. -/
theorem C8_eco_score_witness :
    (scenarioD.duration_minutes ≠ none ∧ scenarioD.distance_km ≠ none) ∧
    (scenarioD.start_battery_percentage ≠ none ∧ scenarioD.end_battery_percentage ≠ none) ∧
    scenarioD.temperature_celsius ≠ none :=
  ⟨C8_eco_score.2.1 scenarioD (by
      norm_num [CalculationService.speedBonus, scenarioD, truthy]),
   C8_eco_score.2.2.1 scenarioD (by
      norm_num [CalculationService.batteryBonus, scenarioD, truthy]),
   C8_eco_score.2.2.2.1 scenarioD (by
      norm_num [CalculationService.tempBonus, scenarioD, truthy])⟩

/-- C10: a field equal to exactly 0 is falsy under Python truthiness,
so the corresponding bonus block is skipped entirely (not even the
else-branch bonus); a Scenario-D-like trip at exactly 0 °C scores 85,
not 100. -/
theorem C10_zero_is_falsy (t : Trip) :
    (t.duration_minutes = some 0 ∨ t.distance_km = some 0 →
      CalculationService.speedBonus t = 0) ∧
    (t.start_battery_percentage = some 0 ∨ t.end_battery_percentage = some 0 →
      CalculationService.batteryBonus t = 0) ∧
    (t.temperature_celsius = some 0 → CalculationService.tempBonus t = 0) ∧
    CalculationService.calculateEcoScore
      { duration_minutes := some 40, distance_km := some 30
        start_battery_percentage := some 80, end_battery_percentage := some 70
        temperature_celsius := some 0 } = 85 := by
  refine ⟨?_, ?_, ?_, by
    norm_num [CalculationService.calculateEcoScore, CalculationService.speedBonus,
      CalculationService.batteryBonus, CalculationService.tempBonus, truthy, pymin]⟩
  · intro h
    unfold CalculationService.speedBonus
    rcases h with h | h <;> simp [truthy, h]
  · intro h
    unfold CalculationService.batteryBonus
    rcases h with h | h <;> simp [truthy, h]
  · intro h
    unfold CalculationService.tempBonus
    simp [truthy, h]

/-- Witness for C10 on a trip whose fields are all exactly 0. -/
theorem C10_zero_is_falsy_witness :
    CalculationService.speedBonus
      ⟨some 0, some 0, some 0, some 0, some 0⟩ = 0 ∧
    CalculationService.batteryBonus
      ⟨some 0, some 0, some 0, some 0, some 0⟩ = 0 ∧
    CalculationService.tempBonus
      ⟨some 0, some 0, some 0, some 0, some 0⟩ = 0 :=
  ⟨(C10_zero_is_falsy ⟨some 0, some 0, some 0, some 0, some 0⟩).1 (Or.inl rfl),
   (C10_zero_is_falsy ⟨some 0, some 0, some 0, some 0, some 0⟩).2.1 (Or.inl rfl),
   (C10_zero_is_falsy ⟨some 0, some 0, some 0, some 0, some 0⟩).2.2.1 rfl⟩

end BatteryMate

namespace BatteryMate

/-- C7: `set_weights` with a nonzero total stores weights that sum to
exactly 1; a zero total raises the division error and stores nothing. -/
theorem C7_set_weights (w : OptWeights) :
    (w.time + w.cost + w.carbon + w.air_quality ≠ 0 →
      ∃ w', RouteOptimizer.setWeights w = Except.ok w' ∧
        w'.time + w'.cost + w'.carbon + w'.air_quality = 1) ∧
    (w.time + w.cost + w.carbon + w.air_quality = 0 →
      RouteOptimizer.setWeights w = Except.error "ZeroDivisionError") := by
  unfold RouteOptimizer.setWeights
  dsimp only
  split_ifs with h0
  · exact ⟨fun h => absurd h0 h, fun _ => rfl⟩
  · refine ⟨fun h => ⟨_, rfl, ?_⟩, fun h => absurd h h0⟩
    rw [div_add_div_same, div_add_div_same, div_add_div_same, div_self h0]

/-- Witness for C7: equal weights normalize to a sum of 1, and the
all-zero vector is rejected. -/
theorem C7_set_weights_witness :
    (∃ w', RouteOptimizer.setWeights ⟨1, 1, 1, 1⟩ = Except.ok w' ∧
      w'.time + w'.cost + w'.carbon + w'.air_quality = 1) ∧
    RouteOptimizer.setWeights ⟨0, 0, 0, 0⟩ = Except.error "ZeroDivisionError" :=
  ⟨(C7_set_weights ⟨1, 1, 1, 1⟩).1 (by norm_num),
   (C7_set_weights ⟨0, 0, 0, 0⟩).2 (by norm_num)⟩

/-- C9: `predict` never mutates the availability state set at
construction, and whenever the model is unavailable it takes the
fallback path. -/
theorem C9_availability_immutable
    (modelPath : RangeFeatures → Except String (ℚ × ℚ))
    (s : PredictorState) (f : RangeFeatures) :
    (RangePredictor.predict modelPath s f).2 = s ∧
    (s.modelAvailable = false →
      (RangePredictor.predict modelPath s f).1 = RangePredictor.predictFallback f) := by
  constructor
  · unfold RangePredictor.predict
    split_ifs <;> rfl
  · intro h
    unfold RangePredictor.predict
    simp [h]

/-- Witness for C9 on an unavailable predictor. -/
theorem C9_availability_immutable_witness :
    (RangePredictor.predict (fun _ => Except.error "model") ⟨false, false⟩ scenarioA).1
      = RangePredictor.predictFallback scenarioA :=
  (C9_availability_immutable (fun _ => Except.error "model") ⟨false, false⟩ scenarioA).2 rfl

/-- C5 (code evaluated at the failing input): `_find_best_station`
returns the ENTIRE sorted candidate list — here the two stations ordered
by proximity to the destination — rather than a single nearest
station. -/
theorem C5_find_best_station_returns_whole_list :
    RouteOptimizer.findBestStation ⟨0, 0⟩ ⟨10, 10⟩ [⟨2, 2⟩, ⟨9, 9⟩] 50
      = some [⟨9, 9⟩, ⟨2, 2⟩] ∧
    (RouteOptimizer.findBestStation ⟨0, 0⟩ ⟨10, 10⟩ [⟨2, 2⟩, ⟨9, 9⟩] 50).map
      List.length = some 2 := by
  constructor
  · norm_num [RouteOptimizer.findBestStation, List.insertionSort, List.orderedInsert, distSq]
  · norm_num [RouteOptimizer.findBestStation, List.insertionSort, List.orderedInsert, distSq]

/-- C4 counterexample: for the concrete feature set missing
`current_battery`, the fallback raises the missing-feature `KeyError`,
yet the facade returns a default-substituted mock value (265/3, 0.75)
instead of propagating the error. -/
theorem C4_counterexample_masked :
    RangePredictor.predictFallback
      ⟨none, some 50, some 25, none, none, none, none, none⟩
      = Except.error "current_battery" ∧
    MLService.predictRange (fun _ => Except.error "model") true ⟨false, false⟩
      ⟨none, some 50, some 25, none, none, none, none, none⟩
      = (265/3, 75/100) := by
  constructor
  · rfl
  · norm_num [MLService.predictRange, RangePredictor.predict,
      RangePredictor.predictFallback, MLService.mockRangePrediction, getReq,
      pymax, bind, Except.bind]

/-- C4 amended: a feature set missing `current_battery`, `distance_km`
or `temperature` makes the predictor raise, but `MLService.predict_range`
catches every prediction error and answers with
`_mock_range_prediction`'s default-substituted value; the error never
reaches the caller. -/
theorem C4_missing_feature_is_masked
    (modelPath : RangeFeatures → Except String (ℚ × ℚ)) (b : Bool)
    (f : RangeFeatures)
    (h : f.current_battery = none ∨ f.distance_km = none ∨ f.temperature = none) :
    (∃ e, (RangePredictor.predict modelPath ⟨false, b⟩ f).1 = Except.error e) ∧
    MLService.predictRange modelPath true ⟨false, b⟩ f
      = MLService.mockRangePrediction f := by
  have hfb : ∃ e, RangePredictor.predictFallback f = Except.error e := by
    rcases h with h | h | h
    · exact ⟨"current_battery",
        by simp [RangePredictor.predictFallback, getReq, h, bind, Except.bind]⟩
    · cases hcb : f.current_battery with
      | none => exact ⟨"current_battery",
          by simp [RangePredictor.predictFallback, getReq, hcb, bind, Except.bind]⟩
      | some v => exact ⟨"distance_km",
          by simp [RangePredictor.predictFallback, getReq, hcb, h, bind, Except.bind]⟩
    · cases hcb : f.current_battery with
      | none => exact ⟨"current_battery",
          by simp [RangePredictor.predictFallback, getReq, hcb, bind, Except.bind]⟩
      | some v =>
        cases hdk : f.distance_km with
        | none => exact ⟨"distance_km",
            by simp [RangePredictor.predictFallback, getReq, hcb, hdk, bind, Except.bind]⟩
        | some u => exact ⟨"temperature",
            by simp [RangePredictor.predictFallback, getReq, hcb, hdk, h, bind, Except.bind]⟩
  obtain ⟨e, he⟩ := hfb
  have hp : (RangePredictor.predict modelPath ⟨false, b⟩ f).1
      = RangePredictor.predictFallback f := by
    simp [RangePredictor.predict]
  refine ⟨⟨e, by rw [hp, he]⟩, ?_⟩
  unfold MLService.predictRange
  rw [if_pos rfl, hp, he]

/-- Witness for C4 amended, missing `distance_km`. -/
theorem C4_missing_feature_is_masked_witness :
    (∃ e, (RangePredictor.predict (fun _ => Except.error "model") ⟨false, false⟩
      ⟨some 80, none, some 25, none, none, none, none, none⟩).1 = Except.error e) ∧
    MLService.predictRange (fun _ => Except.error "model") true ⟨false, false⟩
      ⟨some 80, none, some 25, none, none, none, none, none⟩
      = MLService.mockRangePrediction
          ⟨some 80, none, some 25, none, none, none, none, none⟩ :=
  C4_missing_feature_is_masked (fun _ => Except.error "model") false
    ⟨some 80, none, some 25, none, none, none, none, none⟩ (Or.inr (Or.inl rfl))

end BatteryMate

namespace BatteryMate

lemma lmin_le_base (x : ℚ) (t : List ℚ) : lmin x t ≤ x := by
  induction t generalizing x with
  | nil => exact le_refl x
  | cons y t ih =>
      calc lmin x (y :: t) = lmin (min x y) t := rfl
        _ ≤ min x y := ih (min x y)
        _ ≤ x := min_le_left x y

lemma lmin_mem (x : ℚ) (t : List ℚ) : lmin x t ∈ x :: t := by
  induction t generalizing x with
  | nil => exact List.mem_singleton.2 rfl
  | cons y t ih =>
      have h := ih (min x y)
      have hstep : lmin x (y :: t) = lmin (min x y) t := rfl
      rcases List.mem_cons.1 h with h1 | h1
      · rcases min_choice x y with hc | hc
        · rw [hstep, h1, hc]
          exact List.mem_cons_self x (y :: t)
        · rw [hstep, h1, hc]
          exact List.mem_cons_of_mem x (List.mem_cons_self y t)
      · rw [hstep]
        exact List.mem_cons_of_mem x (List.mem_cons_of_mem y h1)

lemma lmin_le (x : ℚ) (t : List ℚ) : ∀ y ∈ x :: t, lmin x t ≤ y := by
  induction t generalizing x with
  | nil =>
      intro y hy
      rw [List.mem_singleton] at hy
      exact hy ▸ le_refl x
  | cons z t ih =>
      intro y hy
      have hstep : lmin x (z :: t) = lmin (min x z) t := rfl
      rcases List.mem_cons.1 hy with h1 | h1
      · subst h1
        rw [hstep]
        exact le_trans (lmin_le_base (min y z) t) (min_le_left y z)
      · rcases List.mem_cons.1 h1 with h2 | h2
        · subst h2
          rw [hstep]
          exact le_trans (lmin_le_base (min x y) t) (min_le_right x y)
        · rw [hstep]
          exact ih (min x z) y (List.mem_cons_of_mem _ h2)

lemma argminIdx_spec (l : List ℚ) (hl : l ≠ []) :
    ∃ h : argminIdx l < l.length,
      ∀ q ∈ l, l.get ⟨argminIdx l, h⟩ ≤ q := by
  cases l with
  | nil => exact absurd rfl hl
  | cons x t =>
    have hm : lmin x t ∈ x :: t := lmin_mem x t
    have hidx : argminIdx (x :: t) = (x :: t).indexOf (lmin x t) := rfl
    have hlt : argminIdx (x :: t) < (x :: t).length := by
      rw [hidx]
      exact List.indexOf_lt_length.2 hm
    refine ⟨hlt, ?_⟩
    intro q hq
    have hget : (x :: t).get ⟨argminIdx (x :: t), hlt⟩ = lmin x t := by
      simp only [hidx]
      exact List.indexOf_get (hidx ▸ hlt)
    rw [hget]
    exact lmin_le x t q hq

lemma scores_length (w : OptWeights) (routes : List RouteCandidate) :
    (RouteOptimizer.scores w routes).length = routes.length := by
  cases routes with
  | nil => rfl
  | cons r rs => simp [RouteOptimizer.scores]

/-- C2: `optimize_route` returns the sentinel 0 on an empty list, and
otherwise the id of a candidate whose weighted normalized score is
minimal; on Scenario C the winner is candidate B (id 1). -/
theorem C2_optimize_route :
    (∀ w : OptWeights, RouteOptimizer.optimizeRoute w [] = 0) ∧
    (∀ (w : OptWeights) (routes : List RouteCandidate), routes ≠ [] →
      ∃ i, ∃ h : i < routes.length,
        RouteOptimizer.optimizeRoute w routes = (routes.get ⟨i, h⟩).id ∧
        ∃ hs : i < (RouteOptimizer.scores w routes).length,
          ∀ q ∈ RouteOptimizer.scores w routes,
            (RouteOptimizer.scores w routes).get ⟨i, hs⟩ ≤ q) ∧
    RouteOptimizer.optimizeRoute ⟨1/4, 1/4, 1/4, 1/4⟩
      [⟨0, 30, 50, 2000, 78⟩, ⟨1, 20, 80, 1500, 90⟩] = 1 := by
  refine ⟨fun w => rfl, ?_, ?_⟩
  · intro w routes hne
    cases routes with
    | nil => exact absurd rfl hne
    | cons r rs =>
      have hsne : RouteOptimizer.scores w (r :: rs) ≠ [] := by
        simp [RouteOptimizer.scores]
      obtain ⟨hlt, hmin⟩ := argminIdx_spec (RouteOptimizer.scores w (r :: rs)) hsne
      have hlen := scores_length w (r :: rs)
      have hlt' : argminIdx (RouteOptimizer.scores w (r :: rs)) < (r :: rs).length := by
        rw [← hlen]
        exact hlt
      refine ⟨_, hlt', ?_, hlt, hmin⟩
      show RouteOptimizer.optimizeRoute w (r :: rs) = _
      simp only [RouteOptimizer.optimizeRoute]
      rw [List.getD_eq_get _ _ hlt']
  · have hsc : RouteOptimizer.scores ⟨1/4, 1/4, 1/4, 1/4⟩
        [⟨0, 30, 50, 2000, 78⟩, ⟨1, 20, 80, 1500, 90⟩]
        = [5255/11022, 381/806] := by
      norm_num [RouteOptimizer.scores, lmin, lmax, normVal, min_def, max_def]
    have hmin2 : lmin (5255/11022) [381/806] = 381/806 := by
      norm_num [lmin, min_def]
    have hidx : argminIdx [5255/11022, 381/806] = 1 := by
      simp only [argminIdx, hmin2]
      rw [List.indexOf_cons_ne _ (by norm_num), List.indexOf_cons_self]
    simp only [RouteOptimizer.optimizeRoute]
    rw [hsc, hidx]
    rfl

/-- Witness for C2 on the one-candidate list. -/
theorem C2_optimize_route_witness :
    ∃ i, ∃ h : i < [(⟨7, 1, 2, 3, 4⟩ : RouteCandidate)].length,
      RouteOptimizer.optimizeRoute ⟨1/4, 1/4, 1/4, 1/4⟩ [⟨7, 1, 2, 3, 4⟩]
        = ([(⟨7, 1, 2, 3, 4⟩ : RouteCandidate)].get ⟨i, h⟩).id ∧
      ∃ hs : i < (RouteOptimizer.scores ⟨1/4, 1/4, 1/4, 1/4⟩ [⟨7, 1, 2, 3, 4⟩]).length,
        ∀ q ∈ RouteOptimizer.scores ⟨1/4, 1/4, 1/4, 1/4⟩ [⟨7, 1, 2, 3, 4⟩],
          (RouteOptimizer.scores ⟨1/4, 1/4, 1/4, 1/4⟩ [⟨7, 1, 2, 3, 4⟩]).get ⟨i, hs⟩ ≤ q :=
  C2_optimize_route.2.1 ⟨1/4, 1/4, 1/4, 1/4⟩ [⟨7, 1, 2, 3, 4⟩] (by simp)

end BatteryMate

namespace BatteryMate

lemma checkHour_nonneg (ch : ℤ) (k : ℕ) : 0 ≤ checkHour ch k :=
  Int.emod_nonneg _ (by norm_num)

lemma checkHour_lt (ch : ℤ) (k : ℕ) : checkHour ch k < 24 :=
  Int.emod_lt_of_pos _ (by norm_num)

lemma scanFold_bound (model : CostFeatures → ℚ) (ch dow : ℤ) (d : ℚ)
    (grid : List ℚ) (l : List ℕ) (acc : Option ℚ × ℤ)
    (h : 0 ≤ acc.2 ∧ acc.2 < 24) :
    0 ≤ (l.foldl (scanStep model ch dow d grid) acc).2 ∧
      (l.foldl (scanStep model ch dow d grid) acc).2 < 24 := by
  induction l generalizing acc with
  | nil => exact h
  | cons k l ih =>
      rw [List.foldl_cons]
      apply ih
      cases hacc : acc.1 with
      | none =>
          simp only [scanStep, hacc]
          exact ⟨checkHour_nonneg ch k, checkHour_lt ch k⟩
      | some bc =>
          simp only [scanStep, hacc]
          split_ifs
          · exact ⟨checkHour_nonneg ch k, checkHour_lt ch k⟩
          · exact h

lemma scanFold_const (model : CostFeatures → ℚ) (ch dow : ℤ) (d : ℚ)
    (grid : List ℚ) (l : List ℕ) (c : ℚ) (h0 : ℤ)
    (hl : ∀ k ∈ l, slotCost model ch dow d grid k = c) :
    l.foldl (scanStep model ch dow d grid) (some c, h0) = (some c, h0) := by
  induction l with
  | nil => rfl
  | cons k l ih =>
      have hk : slotCost model ch dow d grid k = c := hl k (List.mem_cons_self k l)
      have hstep : scanStep model ch dow d grid (some c, h0) k = (some c, h0) := by
        simp only [scanStep, hk]
        rw [if_neg (lt_irrefl c)]
      rw [List.foldl_cons, hstep]
      exact ih (fun j hj => hl j (List.mem_cons_of_mem _ hj))

/-- C3: for a current hour in [0,23] and a 24-length forecast, the
optimal-charging-time scan returns an hour in [0,23]; when the predicted
cost is the same for every slot and the grid intensity is constant, the
strict-< tie rule keeps the earliest scanned slot, i.e. exactly
`current_hour`. -/
theorem C3_find_optimal_charging_time (model : CostFeatures → ℚ)
    (ch dow : ℤ) (d : ℚ) (grid : List ℚ) (c g : ℚ)
    (h1 : 0 ≤ ch) (h2 : ch < 24) (h3 : grid.length = 24) :
    (0 ≤ ChargingOptimizer.findOptimalChargingTime model ch dow d grid ∧
      ChargingOptimizer.findOptimalChargingTime model ch dow d grid < 24) ∧
    ((∀ k, k < 24 → ChargingOptimizer.predictCost model (slotFeatures ch dow d k) = c) →
      (∀ x ∈ grid, x = g) →
      ChargingOptimizer.findOptimalChargingTime model ch dow d grid = ch) := by
  constructor
  · exact scanFold_bound model ch dow d grid (List.range 24) (none, ch) ⟨h1, h2⟩
  · intro hconst hgrid
    have hslot : ∀ k, k < 24 → slotCost model ch dow d grid k = c * (g / 700) := by
      intro k hk
      have hta : (checkHour ch k).toNat < grid.length := by
        rw [h3]
        have ha := checkHour_lt ch k
        have hb := checkHour_nonneg ch k
        omega
      simp only [slotCost]
      rw [if_pos hta, hconst k hk]
      have hg : grid.getD (checkHour ch k).toNat 0 = g := by
        rw [List.getD_eq_get _ _ hta]
        exact hgrid _ (List.get_mem grid _ _)
      rw [hg]
    have hch0 : checkHour ch 0 = ch := by
      unfold checkHour
      omega
    unfold ChargingOptimizer.findOptimalChargingTime
    rw [show (24 : ℕ) = 23 + 1 from rfl, List.range_succ_eq_map, List.foldl_cons]
    have hfirst : scanStep model ch dow d grid (none, ch) 0
        = (some (c * (g / 700)), ch) := by
      simp only [scanStep]
      rw [hch0, hslot 0 (by norm_num)]
    rw [hfirst]
    rw [scanFold_const model ch dow d grid _ (c * (g / 700)) ch ?_]
    · intro j hj
      obtain ⟨i, hi, rfl⟩ := List.mem_map.1 hj
      have : i < 23 := List.mem_range.1 hi
      exact hslot (Nat.succ i) (by omega)

/-- Witness for C3: a constant cost model and a flat 700 g/kWh forecast
starting at hour 3 select hour 3. -/
theorem C3_find_optimal_charging_time_witness :
    ChargingOptimizer.findOptimalChargingTime (fun _ => 5) 3 2 10
      (List.replicate 24 700) = 3 :=
  (C3_find_optimal_charging_time (fun _ => 5) 3 2 10 (List.replicate 24 700) 5 700
    (by norm_num) (by norm_num) (by simp)).2
    (fun k hk => by norm_num [ChargingOptimizer.predictCost, clip])
    (fun x hx => List.eq_of_mem_replicate hx)

end BatteryMate
